import Mathlib

/-!
Shallow embedding of the client-side analysis dashboard
(`src/frontend/pages/results.js`, `src/frontend/pages/dashboard.js`,
`src/unnamed/part_000` — the OAuth callback page).

The embedding follows the source: JavaScript truthiness on possibly-absent
strings is modelled on `Option String` (absent = `none`, and the empty string
is falsy), the `x || y` default chain is `jsOrElse`, template-literal
interpolation of a possibly-undefined field is `jsToString`, and
`localStorage` is a total map from key strings to optional values.
-/

/-- JavaScript truthiness of a possibly-absent string: `null`/`undefined` and
the empty string are falsy, every other string is truthy. -/
def jsTruthy : Option String → Bool
  | none => false
  | some s => !(s == "")

/-- The JavaScript default chain `a || b` on a possibly-absent string `a`:
yields `b` when `a` is absent or falsy (empty). -/
def jsOrElse (a : Option String) (b : String) : String :=
  match a with
  | none => b
  | some s => if s == "" then b else s

/-- Template-literal coercion of a possibly-undefined string field:
an absent field renders as the string `undefined`. -/
def jsToString (o : Option String) : String :=
  o.getD "undefined"

/-- Whether the pattern occurs at the head of the character list. -/
def matchesAt : List Char → List Char → Bool
  | [], _ => true
  | _ :: _, [] => false
  | p :: ps, c :: cs => p == c && matchesAt ps cs

/-- Whether the pattern occurs as a contiguous run anywhere in the list
(the semantics of JavaScript `String.prototype.includes`). -/
def containsSublist (p : List Char) : List Char → Bool
  | [] => p.isEmpty
  | c :: cs => matchesAt p (c :: cs) || containsSublist p cs

/-- JavaScript `s.includes(pat)` on strings. -/
def strContains (s pat : String) : Bool :=
  containsSublist pat.data s.data

/-! ## Data model (spec §3, fields as they appear in the JSON payloads) -/

/-- An issue from the analysis result; `calculateStats` reads `severity`. -/
structure Issue where
  title : String
  description : String
  type : String
  severity : String
  file : String
  line : Nat
deriving DecidableEq, Repr

/-- An enhancement from the analysis result; `calculateStats` reads `type`. -/
structure Enhancement where
  title : String
  description : String
  type : String
deriving DecidableEq, Repr

/-- A per-file suggestion; `calculateStats` reads `priority`. -/
structure FileSuggestion where
  file : String
  priority : String
deriving DecidableEq, Repr

/-- The analysis-result payload as `results.js` consumes it.  Every array
field may be absent from the JSON (`none`), as may the patch strings and
`total_lines`. -/
structure AnalysisResult where
  issues : Option (List Issue) := none
  enhancements : Option (List Enhancement) := none
  file_suggestions : Option (List FileSuggestion) := none
  files : Option (List String) := none
  total_lines : Option Nat := none
  patch : Option String := none
  enhancement_patch : Option String := none
  deployment_patch : Option String := none
deriving DecidableEq, Repr

/-- The record returned by `calculateStats` (results.js lines 246–260). -/
structure Stats where
  highSeverity : Nat
  mediumSeverity : Nat
  lowSeverity : Nat
  performanceEnhancements : Nat
  securityEnhancements : Nat
  maintainabilityEnhancements : Nat
  highPriorityFiles : Nat
  mediumPriorityFiles : Nat
  lowPriorityFiles : Nat
  totalFiles : Nat
  analyzedLines : Nat
  totalIssues : Nat
  totalEnhancements : Nat
deriving DecidableEq, Repr

/-- `calculateStats` from results.js lines 228–263: returns `null` when no
result is loaded; otherwise destructures `issues`, `enhancements` and
`file_suggestions` with `[]` defaults and counts by category with
`filter(...).length`; `totalFiles` is `result.files?.length || 0` and
`analyzedLines` is `result.total_lines || 0`. -/
def calculateStats (result : Option AnalysisResult) : Option Stats :=
  match result with
  | none => none
  | some r =>
    let issues := r.issues.getD []
    let enhancements := r.enhancements.getD []
    let file_suggestions := r.file_suggestions.getD []
    some
      { highSeverity := (issues.filter (fun i => i.severity == "high")).length
        mediumSeverity := (issues.filter (fun i => i.severity == "medium")).length
        lowSeverity := (issues.filter (fun i => i.severity == "low")).length
        performanceEnhancements :=
          (enhancements.filter (fun e => e.type == "performance")).length
        securityEnhancements :=
          (enhancements.filter (fun e => e.type == "security")).length
        maintainabilityEnhancements :=
          (enhancements.filter (fun e => e.type == "maintainability")).length
        highPriorityFiles :=
          (file_suggestions.filter (fun f => f.priority == "high")).length
        mediumPriorityFiles :=
          (file_suggestions.filter (fun f => f.priority == "medium")).length
        lowPriorityFiles :=
          (file_suggestions.filter (fun f => f.priority == "low")).length
        totalFiles := (r.files.getD []).length
        analyzedLines := r.total_lines.getD 0
        totalIssues := issues.length
        totalEnhancements := enhancements.length }

/-! ## Job poller (results.js lines 64–99)

`fetchResults` is an async closure: it sets `loading`, issues one status
fetch, and dispatches on `resp.data.status`.  A tick is modelled as a
function of the response and the state; it returns the new component state,
the list of state-update calls it performed (the `onUpdate` effects), and
whether it scheduled the next tick via `setTimeout(fetchResults, 2000)`.
The `autoRefresh` argument is the value of the `autoRefresh` flag that the
tick consults (the effect cleanup — the cancellation handle — sets it to
`false`). -/

/-- The status-fetch payload `resp.data`: its `status` string, its optional
`error` text, and the rest of the analysis payload. -/
structure RespData where
  status : String
  error : Option String := none
  body : AnalysisResult := {}
deriving DecidableEq, Repr

/-- Outcome of one status fetch: either a delivered payload, or a
transport failure carrying the optional `err.response.data.detail` and
`err.message`. -/
inductive PollResp
  | ok (data : RespData)
  | fail (detail : Option String) (message : Option String)
deriving DecidableEq, Repr

/-- One state-update call made by a tick (`setLoading`, `setAnalysisProgress`,
`setError`, `setResult`). -/
inductive UpdateEvent
  | setLoading (b : Bool)
  | setProgress (n : Nat)
  | setError (msg : String)
  | setResult (d : RespData)
deriving DecidableEq, Repr

/-- The component state the poller touches: `result`, `loading`, `error`,
`analysisProgress`. -/
structure PollState where
  result : Option RespData
  loading : Bool
  error : String
  analysisProgress : Nat
deriving DecidableEq, Repr

/-- Initial state from the `useState` calls: no result, `loading = true`,
empty error, progress 0. -/
def initPollState : PollState :=
  { result := none, loading := true, error := "", analysisProgress := 0 }

/-- One tick of `fetchResults` (results.js lines 66–91), given the response
that resolves its status fetch.  Returns (new state, update calls made,
whether the next tick was scheduled). -/
def fetchResultsTick (autoRefresh : Bool) (resp : PollResp) (st : PollState) :
    PollState × List UpdateEvent × Bool :=
  let st1 := { st with loading := true }
  match resp with
  | .ok data =>
    if data.status == "running" then
      let p := min (st1.analysisProgress + 10) 90
      ({ st1 with analysisProgress := p },
       [.setLoading true, .setProgress p],
       autoRefresh)
    else if data.status == "error" then
      let msg := "Analysis failed: " ++ jsToString data.error
      ({ st1 with error := msg, loading := false, analysisProgress := 0 },
       [.setLoading true, .setError msg, .setLoading false, .setProgress 0],
       false)
    else
      ({ st1 with result := some data, loading := false, analysisProgress := 100 },
       [.setLoading true, .setResult data, .setLoading false, .setProgress 100],
       false)
  | .fail detail message =>
    let msg := jsOrElse detail (jsOrElse message "Failed to fetch results")
    ({ st1 with error := msg, loading := false, analysisProgress := 0 },
     [.setLoading true, .setError msg, .setLoading false, .setProgress 0],
     false)

/-- Run the polling loop on a list of tick responses: each tick consumes one
response, and the loop continues only while ticks keep scheduling their
successor.  Responses beyond a terminal tick are never fetched. -/
def runPoll (autoRefresh : Bool) : List PollResp → PollState → PollState × List UpdateEvent
  | [], st => (st, [])
  | r :: rs, st =>
    let out := fetchResultsTick autoRefresh r st
    if out.2.2 then
      let rest := runPoll autoRefresh rs out.1
      (rest.1, out.2.1 ++ rest.2)
    else
      (out.1, out.2.1)

/-- A backend response whose status is `running`. -/
def runningResp : PollResp :=
  .ok { status := "running" }

/-- A backend response whose status is `error`, carrying error text `e`. -/
def errorResp (e : String) : PollResp :=
  .ok { status := "error", error := some e }

/-- Whether a delivered response has status `running` (the only case in
which a tick can schedule a successor). -/
def respIsRunning : PollResp → Bool
  | .ok data => data.status == "running"
  | .fail _ _ => false

/-- Whether an update event is a `setError` call. -/
def isErrorEvent : UpdateEvent → Bool
  | .setError _ => true
  | _ => false

/-! ## Job launcher (dashboard.js `analyze`, lines 118–183) -/

/-- Outcome of a submission attempt: a local rejection (error message set,
no network request issued) or a POST to one of the two analyze endpoints
with the chosen repository identifier. -/
inductive AnalyzeOutcome
  | localError (msg : String)
  | posted (endpoint : String) (repo : String)
deriving DecidableEq, Repr

/-- The local validation phase of `analyze` (dashboard.js lines 119–137) and
the request-shape selection (lines 143–146): rejects when the token is falsy;
in `your-repos` mode rejects when `selectedRepo` is falsy (empty), otherwise
posts `/analyze-repo` with it; in the other mode rejects when
`customRepo.trim()` is falsy, otherwise posts `/analyze` with the untrimmed
`customRepo`. -/
def analyze (token : Option String) (analysisMode selectedRepo customRepo : String) :
    AnalyzeOutcome :=
  if !(jsTruthy token) then
    .localError "Not authenticated. Please login first."
  else if analysisMode == "your-repos" then
    if selectedRepo == "" then
      .localError "Please select a repository"
    else
      .posted "/analyze-repo" selectedRepo
  else
    if customRepo.trim == "" then
      .localError "Please enter a public repository (owner/repo)"
    else
      .posted "/analyze" customRepo

/-- Whether a submission attempt issued a network request. -/
def analyzePosted : AnalyzeOutcome → Bool
  | .posted _ _ => true
  | .localError _ => false

/-- The rate-limit message of dashboard.js line 176. -/
def rateLimitMessage : String :=
  "⚠️ Rate Limit Exceeded (429). The Gemini API is currently busy. Please wait a minute and try again, or use a different API key."

/-- The detail string computed in the catch branch of `analyze`
(dashboard.js line 173): `err?.response?.data?.detail || err?.message ||
"Analysis failed"`. -/
def computeDetail (serverDetail errMessage : Option String) : String :=
  jsOrElse serverDetail (jsOrElse errMessage "Analysis failed")

/-- The user-facing message produced by the catch branch of `analyze`
(dashboard.js lines 172–179): the default-chained detail, replaced by the
rate-limit message when the HTTP status is 429 or the detail string contains
the marker `429`. -/
def analyzeFailureMessage (status : Option Nat) (serverDetail errMessage : Option String) :
    String :=
  let detail := computeDetail serverDetail errMessage
  if status == some 429 || strContains detail "429" then
    rateLimitMessage
  else
    detail

/-! ## Action dispatcher (results.js `createPR`, `createEnhancementPR`,
`createDeploymentPR`, lines 123–199) -/

/-- Outcome of one PR-creating operation: a local validation error (message
set, no network call) or a POST to the operation's endpoint. -/
inductive ActionOutcome
  | localError (msg : String)
  | posted (endpoint : String)
deriving DecidableEq, Repr

/-- Whether a PR-creating operation issued a network request. -/
def actionPosted : ActionOutcome → Bool
  | .posted _ => true
  | .localError _ => false

/-- `createPR` (results.js lines 123–147): rejects when the token is falsy,
then when `result?.patch` is falsy; otherwise posts `/api/pr`. -/
def createPR (token : Option String) (result : Option AnalysisResult) : ActionOutcome :=
  if !(jsTruthy token) then
    .localError "Not authenticated. Please login first."
  else if !(jsTruthy (result.bind (fun r => r.patch))) then
    .localError "No patch available"
  else
    .posted "/api/pr"

/-- `createEnhancementPR` (results.js lines 149–172): rejects when the token
is falsy, then when `result?.enhancement_patch` is falsy; otherwise posts
`/api/pr-enhancements`. -/
def createEnhancementPR (token : Option String) (result : Option AnalysisResult) :
    ActionOutcome :=
  if !(jsTruthy token) then
    .localError "Not authenticated. Please login first."
  else if !(jsTruthy (result.bind (fun r => r.enhancement_patch))) then
    .localError "No enhancement suggestions available"
  else
    .posted "/api/pr-enhancements"

/-- `createDeploymentPR` (results.js lines 174–199): rejects when the token
is falsy, then when `result?.deployment_patch` is falsy; otherwise posts
`/api/pr-deployment`. -/
def createDeploymentPR (token : Option String) (result : Option AnalysisResult) :
    ActionOutcome :=
  if !(jsTruthy token) then
    .localError "Not authenticated. Please login first."
  else if !(jsTruthy (result.bind (fun r => r.deployment_patch))) then
    .localError "No deployment configuration available"
  else
    .posted "/api/pr-deployment"

/-! ## Sign-out handlers and browser-local storage -/

/-- Browser-local storage: a total map from key strings to optionally
present values. -/
def Store : Type := String → Option String

/-- `localStorage.removeItem(k)`. -/
def removeItem (st : Store) (k : String) : Store :=
  fun k2 => if k2 == k then none else st k2

/-- `localStorage.clear()`. -/
def clearStore : Store :=
  fun _ => none

/-- `localStorage.setItem(k, v)`. -/
def setItem (st : Store) (k v : String) : Store :=
  fun k2 => if k2 == k then some v else st k2

/-- `handleLogout` from results.js lines 218–225: removes the five keys
`access_token`, `user_email`, `user_name`, `user_id`, `user_login`. -/
def resultsHandleLogout (st : Store) : Store :=
  removeItem (removeItem (removeItem (removeItem (removeItem st
    "access_token") "user_email") "user_name") "user_id") "user_login"

/-- `handleLogout` from dashboard.js lines 185–188: `localStorage.clear()`. -/
def dashboardHandleLogout (_st : Store) : Store :=
  clearStore

/-- The storage writes of the OAuth callback page (`src/unnamed/part_000`
lines 27–29): the only keys this client ever sets. -/
def callbackStoreAuth (st : Store) (token user : String) : Store :=
  setItem (setItem (setItem st "access_token" token) "user_login" user) "user_name" user

/-! ## Helper lemmas -/

/-- Unfolding of one tick on a `running` response. -/
theorem fetchResultsTick_running (ar : Bool) (st : PollState) :
    fetchResultsTick ar runningResp st =
      ({ st with loading := true, analysisProgress := min (st.analysisProgress + 10) 90 },
       [.setLoading true, .setProgress (min (st.analysisProgress + 10) 90)], ar) := rfl

/-- Progress after `k` consecutive `running` ticks from a state whose
progress does not exceed the cap: it is the capped sum `min (p + 10k) 90`. -/
theorem runPoll_replicate_running (k : Nat) (st : PollState)
    (h : st.analysisProgress ≤ 90) :
    (runPoll true (List.replicate k runningResp) st).1.analysisProgress =
      min (st.analysisProgress + 10 * k) 90 := by
  induction k generalizing st with
  | zero => simp only [List.replicate, runPoll]; omega
  | succ n ih =>
    rw [List.replicate_succ]
    show (runPoll true (runningResp :: List.replicate n runningResp) st).1.analysisProgress = _
    simp only [runPoll, fetchResultsTick_running, if_true]
    rw [ih]
    · simp only []; omega
    · simp only []; omega

/-- The three severity filters of `calculateStats` jointly count exactly the
issues whose severity is one of the three recognised strings. -/
theorem severity_filter_sum (l : List Issue) :
    (l.filter (fun i => i.severity == "high")).length +
      (l.filter (fun i => i.severity == "medium")).length +
      (l.filter (fun i => i.severity == "low")).length =
      l.countP (fun i =>
        i.severity == "high" || i.severity == "medium" || i.severity == "low") := by
  induction l with
  | nil => rfl
  | cons x xs ih =>
    simp only [List.filter_cons, List.countP_cons]
    by_cases h1 : x.severity = "high"
    · simp only [h1]; simp; omega
    · by_cases h2 : x.severity = "medium"
      · simp only [h2]; simp; omega
      · by_cases h3 : x.severity = "low"
        · simp only [h3]; simp; omega
        · simp [h1, h2, h3]; omega

/-- A truthy possibly-absent string is present. -/
theorem jsTruthy_ne_none {o : Option String} (h : jsTruthy o = true) : o ≠ none := by
  intro he
  rw [he] at h
  exact Bool.false_ne_true h

/-! ## Claims -/

/-- Claim C1 as stated is false at a concrete input: with the cancellation
flag already cleared (`autoRefresh = false`) when the in-flight tick's
response arrives, the tick still applies state updates — on a `running`
response it performs `setLoading true` and `setProgress 10` from the initial
state. -/
theorem c1_cancel_counterexample :
    (fetchResultsTick false runningResp initPollState).2.1 =
      [UpdateEvent.setLoading true, UpdateEvent.setProgress 10] ∧
    (fetchResultsTick false runningResp initPollState).2.1 ≠ [] := by
  decide

/-- Claim C1 (amended): cancellation does not suppress the in-flight tick's
updates — a cancelled tick performs exactly the same state-update calls as
an uncancelled one would, and every tick performs at least one update; the
cancellation flag is consulted only when deciding whether to schedule the
next tick, which happens exactly when the flag is still set and the response
status is `running`. -/
theorem c1_cancellation_amended (ar : Bool) (resp : PollResp) (st : PollState) :
    (fetchResultsTick false resp st).2.1 = (fetchResultsTick true resp st).2.1 ∧
    (fetchResultsTick ar resp st).2.1 ≠ [] ∧
    (fetchResultsTick ar resp st).2.2 = (ar && respIsRunning resp) := by
  cases resp with
  | ok data =>
    by_cases h1 : data.status = "running"
    · simp [fetchResultsTick, respIsRunning, h1]
    · by_cases h2 : data.status = "error"
      · simp [fetchResultsTick, respIsRunning, h1, h2]
      · simp [fetchResultsTick, respIsRunning, h1, h2]
  | fail d m => simp [fetchResultsTick, respIsRunning]

/-- Claim C2 as stated is false at a concrete input: on an all-`running`
sequence, progress after nine ticks is already 90, and the tenth tick leaves
it at 90 instead of strictly increasing it by 10. -/
theorem c2_progress_counterexample :
    (runPoll true (List.replicate 9 runningResp) initPollState).1.analysisProgress = 90 ∧
    (runPoll true (List.replicate 10 runningResp) initPollState).1.analysisProgress = 90 ∧
    (runPoll true (List.replicate 10 runningResp) initPollState).1.analysisProgress ≠
      (runPoll true (List.replicate 9 runningResp) initPollState).1.analysisProgress + 10 := by
  decide

/-- Claim C2 (amended): after `k` all-`running` ticks the reported progress
is exactly `min (10k) 90`; hence it never exceeds 90, is monotonically
non-decreasing from tick to tick, and strictly increases by 10 per tick
while the cap has not been reached (`10(k+1) ≤ 90`). -/
theorem c2_progress_amended (k : Nat) :
    (runPoll true (List.replicate k runningResp) initPollState).1.analysisProgress =
      min (10 * k) 90 ∧
    (runPoll true (List.replicate k runningResp) initPollState).1.analysisProgress ≤ 90 ∧
    (runPoll true (List.replicate k runningResp) initPollState).1.analysisProgress ≤
      (runPoll true (List.replicate (k + 1) runningResp) initPollState).1.analysisProgress ∧
    (10 * (k + 1) ≤ 90 →
      (runPoll true (List.replicate (k + 1) runningResp) initPollState).1.analysisProgress =
        (runPoll true (List.replicate k runningResp) initPollState).1.analysisProgress + 10) := by
  have h0 : initPollState.analysisProgress = 0 := rfl
  have hk := runPoll_replicate_running k initPollState (by rw [h0]; omega)
  have hk1 := runPoll_replicate_running (k + 1) initPollState (by rw [h0]; omega)
  rw [hk, hk1, h0]
  refine ⟨by omega, by omega, by omega, fun hcap => by omega⟩

/-- Witness for the amended claim C2 at `k = 3`: the cap is not yet reached,
and the fourth tick raises progress from 30 to 40. -/
theorem c2_progress_amended_witness :
    10 * (3 + 1) ≤ 90 ∧
    (runPoll true (List.replicate (3 + 1) runningResp) initPollState).1.analysisProgress =
      (runPoll true (List.replicate 3 runningResp) initPollState).1.analysisProgress + 10 :=
  ⟨by omega, (c2_progress_amended 3).2.2.2 (by omega)⟩

/-- Claim C3: a tick whose delivered status is neither `running` nor `error`
is treated as completion — the exact received payload is stored as the
result, loading ends, progress is set to 100, and no further tick is
scheduled (its update calls are exactly `setLoading true`, `setResult`,
`setLoading false`, `setProgress 100`). -/
theorem c3_done_terminal (ar : Bool) (data : RespData) (st : PollState)
    (h1 : data.status ≠ "running") (h2 : data.status ≠ "error") :
    (fetchResultsTick ar (.ok data) st).1.result = some data ∧
    (fetchResultsTick ar (.ok data) st).1.analysisProgress = 100 ∧
    (fetchResultsTick ar (.ok data) st).1.loading = false ∧
    (fetchResultsTick ar (.ok data) st).2.1 =
      [.setLoading true, .setResult data, .setLoading false, .setProgress 100] ∧
    (fetchResultsTick ar (.ok data) st).2.2 = false := by
  simp [fetchResultsTick, h1, h2]

/-- Witness for claim C3 with status `done` from the initial state. -/
theorem c3_done_terminal_witness :
    ("done" : String) ≠ "running" ∧ ("done" : String) ≠ "error" ∧
    (fetchResultsTick true (.ok { status := "done" }) initPollState).1.result =
      some { status := "done" } := by
  refine ⟨by decide, by decide, ?_⟩
  exact (c3_done_terminal true { status := "done" } initPollState
    (by decide) (by decide)).1

/-- Claim C4: on the tick sequence `[running, running, error]` the poller
performs exactly one `setError` call, carrying the backend-supplied error
text, leaves progress at 0, and executes no further tick — responses queued
after the error are never consumed. -/
theorem c4_error_sequence (e : String) (rest : List PollResp) :
    ((runPoll true ([runningResp, runningResp, errorResp e] ++ rest) initPollState).2.filter
        isErrorEvent) = [UpdateEvent.setError ("Analysis failed: " ++ e)] ∧
    (runPoll true ([runningResp, runningResp, errorResp e] ++ rest)
        initPollState).1.analysisProgress = 0 ∧
    runPoll true ([runningResp, runningResp, errorResp e] ++ rest) initPollState =
      runPoll true [runningResp, runningResp, errorResp e] initPollState := by
  refine ⟨?_, ?_, ?_⟩ <;>
    simp [runPoll, fetchResultsTick, runningResp, errorResp, initPollState,
      isErrorEvent, jsToString]

/-- The spec's example issue list: severities high, high, low. -/
def exampleIssuesResult : AnalysisResult :=
  { issues := some
      [ { title := "a", description := "", type := "bug", severity := "high",
          file := "f", line := 1 },
        { title := "b", description := "", type := "bug", severity := "high",
          file := "f", line := 2 },
        { title := "c", description := "", type := "bug", severity := "low",
          file := "f", line := 3 } ] }

/-- A result whose `enhancements` field is absent from the payload. -/
def noEnhancementsResult : AnalysisResult :=
  { issues := some [], enhancements := none, file_suggestions := some [] }

/-- Claim C5: the derived-statistics computation is total on every loaded
result — it always produces a stats record, treating each absent array as
empty, and each count equals the number of elements of the (defaulted) array
whose categorical field matches the category; on the spec's example issue
list it yields high = 2, medium = 0, low = 1, and on a result with a missing
`enhancements` field it yields all-zero enhancement counts. -/
theorem c5_calculateStats_total (r : AnalysisResult) :
    (∃ s, calculateStats (some r) = some s ∧
      s.highSeverity = (r.issues.getD []).countP (fun i => i.severity == "high") ∧
      s.mediumSeverity = (r.issues.getD []).countP (fun i => i.severity == "medium") ∧
      s.lowSeverity = (r.issues.getD []).countP (fun i => i.severity == "low") ∧
      s.performanceEnhancements =
        (r.enhancements.getD []).countP (fun e => e.type == "performance") ∧
      s.securityEnhancements =
        (r.enhancements.getD []).countP (fun e => e.type == "security") ∧
      s.maintainabilityEnhancements =
        (r.enhancements.getD []).countP (fun e => e.type == "maintainability") ∧
      s.highPriorityFiles =
        (r.file_suggestions.getD []).countP (fun f => f.priority == "high") ∧
      s.mediumPriorityFiles =
        (r.file_suggestions.getD []).countP (fun f => f.priority == "medium") ∧
      s.lowPriorityFiles =
        (r.file_suggestions.getD []).countP (fun f => f.priority == "low") ∧
      s.totalIssues = (r.issues.getD []).length ∧
      s.totalEnhancements = (r.enhancements.getD []).length) ∧
    (calculateStats (some exampleIssuesResult)).map
        (fun s => (s.highSeverity, s.mediumSeverity, s.lowSeverity)) = some (2, 0, 1) ∧
    (calculateStats (some noEnhancementsResult)).map
        (fun s => (s.performanceEnhancements, s.securityEnhancements,
          s.maintainabilityEnhancements)) = some (0, 0, 0) := by
  refine ⟨⟨_, rfl, ?_, ?_, ?_, ?_, ?_, ?_, ?_, ?_, ?_, ?_, ?_⟩, by decide, by decide⟩ <;>
    simp [List.countP_eq_length_filter]

/-- Claim C6: the job launcher posts exactly when the credential is truthy
and the active locator is non-empty (`selectedRepo` in `your-repos` mode,
`customRepo` after trimming otherwise); each failing precondition instead
produces the corresponding local error message and no network request. -/
theorem c6_analyze_gating (token : Option String)
    (analysisMode selectedRepo customRepo : String) :
    analyzePosted (analyze token analysisMode selectedRepo customRepo) =
      (jsTruthy token &&
        (if analysisMode == "your-repos" then !(selectedRepo == "")
         else !(customRepo.trim == ""))) ∧
    (jsTruthy token = false →
      analyze token analysisMode selectedRepo customRepo =
        .localError "Not authenticated. Please login first.") ∧
    (jsTruthy token = true → analysisMode = "your-repos" → selectedRepo = "" →
      analyze token analysisMode selectedRepo customRepo =
        .localError "Please select a repository") ∧
    (jsTruthy token = true → analysisMode ≠ "your-repos" → customRepo.trim = "" →
      analyze token analysisMode selectedRepo customRepo =
        .localError "Please enter a public repository (owner/repo)") := by
  cases htok : jsTruthy token
  · simp [analyze, analyzePosted, htok]
  · by_cases hmode : analysisMode = "your-repos"
    · by_cases hsel : selectedRepo = "" <;>
        simp [analyze, analyzePosted, htok, hmode, hsel]
    · by_cases hcust : customRepo.trim = "" <;>
        simp [analyze, analyzePosted, htok, hmode, hcust]

/-- Witness for claim C6: in `your-repos` mode with a present credential but
an empty selection, submission is rejected locally with the selection
message (and hence no request is posted). -/
theorem c6_analyze_gating_witness :
    jsTruthy (some "tok") = true ∧ ("your-repos" : String) = "your-repos" ∧
    ("" : String) = "" ∧
    analyze (some "tok") "your-repos" "" "octo/repo" =
      .localError "Please select a repository" :=
  ⟨by decide, rfl, rfl,
    (c6_analyze_gating (some "tok") "your-repos" "" "octo/repo").2.2.1
      (by decide) rfl rfl⟩

/-- Claim C7: a submission failure whose HTTP status is 429, or whose
default-chained detail string contains the marker `429`, surfaces the
rate-limit-specific message; every other failure surfaces the server detail
when truthy, else the transport message, else the generic `Analysis failed`;
and the rate-limit message is distinct from the generic one. -/
theorem c7_failure_message (status : Option Nat) (serverDetail errMessage : Option String) :
    (status = some 429 →
      analyzeFailureMessage status serverDetail errMessage = rateLimitMessage) ∧
    (strContains (computeDetail serverDetail errMessage) "429" = true →
      analyzeFailureMessage status serverDetail errMessage = rateLimitMessage) ∧
    (status ≠ some 429 →
      strContains (computeDetail serverDetail errMessage) "429" = false →
      analyzeFailureMessage status serverDetail errMessage =
        computeDetail serverDetail errMessage) ∧
    (∀ d, serverDetail = some d → d ≠ "" →
      computeDetail serverDetail errMessage = d) ∧
    (serverDetail = none → errMessage = none →
      computeDetail serverDetail errMessage = "Analysis failed") ∧
    rateLimitMessage ≠ "Analysis failed" := by
  refine ⟨?_, ?_, ?_, ?_, ?_, by decide⟩
  · intro h
    simp [analyzeFailureMessage, h]
  · intro h
    simp [analyzeFailureMessage, h]
  · intro h1 h2
    have : (status == some 429) = false := by
      simp [h1]
    simp [analyzeFailureMessage, this, h2]
  · intro d hd hne
    simp [computeDetail, jsOrElse, hd, hne]
  · intro h1 h2
    simp [computeDetail, jsOrElse, h1, h2]

/-- Witness for claim C7: HTTP status 429 with no body detail surfaces the
rate-limit message. -/
theorem c7_failure_message_witness :
    (some 429 : Option Nat) = some 429 ∧
    analyzeFailureMessage (some 429) none none = rateLimitMessage :=
  ⟨rfl, (c7_failure_message (some 429) none none).1 rfl⟩

/-- Claim C8: each PR-creating operation posts exactly when the credential
is truthy and its specific patch field on the current result is truthy
(hence posting implies both are non-null); an absent credential yields the
local `not authenticated` message with no network call even when the field
is present, and a present credential with an absent field yields the
operation's own local validation message with no network call. -/
theorem c8_pr_gating (token : Option String) (result : Option AnalysisResult) :
    actionPosted (createPR token result) =
      (jsTruthy token && jsTruthy (result.bind (fun r => r.patch))) ∧
    actionPosted (createEnhancementPR token result) =
      (jsTruthy token && jsTruthy (result.bind (fun r => r.enhancement_patch))) ∧
    actionPosted (createDeploymentPR token result) =
      (jsTruthy token && jsTruthy (result.bind (fun r => r.deployment_patch))) ∧
    (actionPosted (createPR token result) = true →
      token ≠ none ∧ result.bind (fun r => r.patch) ≠ none) ∧
    (jsTruthy token = false →
      createPR token result = .localError "Not authenticated. Please login first." ∧
      createEnhancementPR token result =
        .localError "Not authenticated. Please login first." ∧
      createDeploymentPR token result =
        .localError "Not authenticated. Please login first.") ∧
    (jsTruthy token = true →
      (jsTruthy (result.bind (fun r => r.patch)) = false →
        createPR token result = .localError "No patch available") ∧
      (jsTruthy (result.bind (fun r => r.enhancement_patch)) = false →
        createEnhancementPR token result =
          .localError "No enhancement suggestions available") ∧
      (jsTruthy (result.bind (fun r => r.deployment_patch)) = false →
        createDeploymentPR token result =
          .localError "No deployment configuration available")) := by
  refine ⟨?_, ?_, ?_, ?_, ?_, ?_⟩
  · cases htok : jsTruthy token <;>
      cases hp : jsTruthy (result.bind (fun r => r.patch)) <;>
        simp [createPR, actionPosted, htok, hp]
  · cases htok : jsTruthy token <;>
      cases he : jsTruthy (result.bind (fun r => r.enhancement_patch)) <;>
        simp [createEnhancementPR, actionPosted, htok, he]
  · cases htok : jsTruthy token <;>
      cases hd : jsTruthy (result.bind (fun r => r.deployment_patch)) <;>
        simp [createDeploymentPR, actionPosted, htok, hd]
  · intro hpost
    cases htok : jsTruthy token with
    | false => simp [createPR, actionPosted, htok] at hpost
    | true =>
      cases hp : jsTruthy (result.bind (fun r => r.patch)) with
      | false => simp [createPR, actionPosted, htok, hp] at hpost
      | true => exact ⟨jsTruthy_ne_none htok, jsTruthy_ne_none hp⟩
  · intro htok
    refine ⟨?_, ?_, ?_⟩ <;>
      simp [createPR, createEnhancementPR, createDeploymentPR, htok]
  · intro htok
    refine ⟨fun hf => ?_, fun hf => ?_, fun hf => ?_⟩ <;>
      simp [createPR, createEnhancementPR, createDeploymentPR, htok, hf]

/-- A result payload carrying a fix patch. -/
def patchOnlyResult : AnalysisResult :=
  { patch := some "diff --git a b" }

/-- Witness for claim C8: `result.patch` present but credential absent is
rejected with the `not authenticated` message. -/
theorem c8_pr_gating_witness :
    jsTruthy (none : Option String) = false ∧
    createPR none (some patchOnlyResult) =
      .localError "Not authenticated. Please login first." :=
  ⟨rfl, ((c8_pr_gating none (some patchOnlyResult)).2.2.2.2.1 rfl).1⟩

/-- A storage state in which the avatar-URL key carries a value. -/
def avatarStore : Store :=
  fun k => if k == "user_avatar" then some "https://avatars.example/u.png" else none

/-- Claim C9 as stated is false at a concrete input: the results-page
sign-out handler does not remove the avatar-URL key `user_avatar` (a session
field that dashboard.js reads), so a store carrying it still carries it
after that handler runs. -/
theorem c9_logout_counterexample :
    resultsHandleLogout avatarStore "user_avatar" =
      some "https://avatars.example/u.png" ∧
    resultsHandleLogout avatarStore "user_avatar" ≠ none := by
  decide

/-- Claim C9 (amended): the dashboard sign-out clears every key; the
results-page sign-out removes exactly the five keys `access_token`,
`user_email`, `user_name`, `user_id`, `user_login` and leaves every other
key — including the avatar-URL key `user_avatar` — unchanged; in particular
each key this client itself writes at login is cleared by both handlers. -/
theorem c9_logout_amended (st : Store) (k : String) :
    dashboardHandleLogout st k = none ∧
    resultsHandleLogout st k =
      (if k == "access_token" || k == "user_email" || k == "user_name" ||
          k == "user_id" || k == "user_login" then none else st k) ∧
    resultsHandleLogout st "access_token" = none ∧
    resultsHandleLogout st "user_login" = none ∧
    resultsHandleLogout st "user_name" = none := by
  refine ⟨rfl, ?_, by simp [resultsHandleLogout, removeItem],
    by simp [resultsHandleLogout, removeItem], ?_⟩
  · simp only [resultsHandleLogout, removeItem]
    by_cases h1 : k = "user_login"
    · simp [h1]
    · by_cases h2 : k = "user_id"
      · simp [h1, h2]
      · by_cases h3 : k = "user_name"
        · simp [h1, h2, h3]
        · by_cases h4 : k = "user_email"
          · simp [h1, h2, h3, h4]
          · by_cases h5 : k = "access_token"
            · simp [h1, h2, h3, h4, h5]
            · simp [h1, h2, h3, h4, h5]
  · simp [resultsHandleLogout, removeItem]

/-- The concrete result used to instantiate claim C10: two recognised
severities and one unrecognised one. -/
def c10ExampleResult : AnalysisResult :=
  { issues := some
      [ { title := "a", description := "", type := "bug", severity := "high",
          file := "f", line := 1 },
        { title := "b", description := "", type := "bug", severity := "critical",
          file := "f", line := 2 } ] }

/-- Claim C10: the three severity counts sum to at most `totalIssues`, with
equality exactly when every issue's severity is one of `high`, `medium`,
`low`; issues with any other severity are counted in `totalIssues` but in
none of the three buckets. -/
theorem c10_severity_sum (r : AnalysisResult) (s : Stats)
    (h : calculateStats (some r) = some s) :
    s.highSeverity + s.mediumSeverity + s.lowSeverity ≤ s.totalIssues ∧
    (s.highSeverity + s.mediumSeverity + s.lowSeverity = s.totalIssues ↔
      ∀ i ∈ r.issues.getD [], i.severity = "high" ∨ i.severity = "medium" ∨
        i.severity = "low") := by
  simp only [calculateStats, Option.some.injEq] at h
  subst h
  simp only []
  rw [severity_filter_sum]
  constructor
  · exact List.countP_le_length _
  · rw [List.countP_eq_length]
    constructor
    · intro hall i hi
      have := hall i hi
      simp only [Bool.or_eq_true, beq_iff_eq] at this
      tauto
    · intro hall i hi
      have := hall i hi
      simp only [Bool.or_eq_true, beq_iff_eq]
      tauto

/-- Witness for claim C10 on a result with severities `high` and `critical`:
the bucket sum is 1, strictly below `totalIssues = 2`, because `critical`
falls in no bucket. -/
theorem c10_severity_sum_witness :
    (∃ s, calculateStats (some c10ExampleResult) = some s ∧
      s.highSeverity + s.mediumSeverity + s.lowSeverity ≤ s.totalIssues) := by
  obtain ⟨s, hs⟩ : ∃ s, calculateStats (some c10ExampleResult) = some s :=
    ⟨_, rfl⟩
  exact ⟨s, hs, (c10_severity_sum c10ExampleResult s hs).1⟩
